import Mathlib

/-!
# Verification of the handwerk-ml Similarity & Confidence Engine

Shallow embedding of the ML core of the handwerk-ml repository:

* `src/calculator/ml/confidence.py`   — `ConfidenceCalculator`
* `src/calculator/ml/embeddings.py`   — `EmbeddingGenerator`
* `src/calculator/ml/price_predictor.py` — `PricePredictor`
* `src/calculator/ml/feature_engineer.py` — `FeatureEngineer`

Python floats are modelled as real numbers (`ℝ`) where the code uses
transcendental functions (`np.log`, `np.exp`, square roots), and as exact
rationals (`ℚ`) where the code only performs field operations, so that
concrete runs can be evaluated by `decide`.  Python's `round(x, 3)`
(banker's rounding, round-half-to-even on the third decimal) is modelled
by `roundHalfEven` below.  Python exceptions are modelled by `Except`
with an explicit error type.
-/

namespace HandwerkML

/-! ## Python-style rounding

`round(x, 3)` in Python rounds to the nearest multiple of `1/1000`,
breaking exact ties towards the even digit (round-half-even). -/

/-- Round-half-even to the nearest integer: ties (fractional part exactly
`1/2`) go to the even neighbour, everything else to the nearest integer
(`round` in Mathlib rounds half up). -/
noncomputable def roundHalfEven (y : ℝ) : ℤ :=
  if Int.fract y = 1 / 2 then (if Even ⌊y⌋ then ⌊y⌋ else ⌈y⌉) else round y

/-- Model of Python's `round(x, 3)`: round-half-even on the third decimal. -/
noncomputable def round3 (x : ℝ) : ℝ :=
  (roundHalfEven (1000 * x) : ℝ) / 1000

theorem floor_le_roundHalfEven (y : ℝ) : ⌊y⌋ ≤ roundHalfEven y := by
  unfold roundHalfEven
  split
  · split
    · exact le_refl _
    · exact Int.floor_le_ceil y
  · rw [round_eq]
    exact Int.floor_mono (by linarith)

theorem roundHalfEven_le_ceil (y : ℝ) : roundHalfEven y ≤ ⌈y⌉ := by
  unfold roundHalfEven
  split
  · split
    · exact Int.floor_le_ceil y
    · exact le_refl _
  · rw [round_eq]
    have h1 : y + 1 / 2 < (⌈y⌉ : ℝ) + 1 := by
      have := Int.le_ceil y
      linarith
    by_contra hlt
    push_neg at hlt
    have h2 : ((⌈y⌉ + 1 : ℤ) : ℝ) ≤ y + 1 / 2 := by
      have := (Int.le_floor).1 hlt
      push_cast at this ⊢
      linarith
    push_cast at h2
    linarith

theorem roundHalfEven_le_round (y : ℝ) : roundHalfEven y ≤ round y := by
  unfold roundHalfEven
  split
  · rename_i htie
    split
    · rw [round_eq]
      exact Int.floor_mono (by linarith)
    · -- at an exact tie `y = ⌊y⌋ + 1/2`, so `round y = ⌊y⌋ + 1 ≥ ⌈y⌉`
      have hy : y = (⌊y⌋ : ℝ) + 1 / 2 := by
        have := Int.floor_add_fract y
        rw [htie] at this
        linarith
      have hr : (⌊y⌋ + 1 : ℤ) ≤ round y := by
        rw [round_eq, Int.le_floor]
        push_cast
        linarith [hy]
      calc ⌈y⌉ ≤ ⌊y⌋ + 1 := Int.ceil_le_floor_add_one y
        _ ≤ round y := hr
  · exact le_refl _

theorem round_mono_real {y z : ℝ} (h : y ≤ z) : round y ≤ round z := by
  rw [round_eq, round_eq]
  exact Int.floor_mono (by linarith)

theorem roundHalfEven_mono {y z : ℝ} (h : y ≤ z) :
    roundHalfEven y ≤ roundHalfEven z := by
  by_cases htz : Int.fract z = 1 / 2
  · by_cases hez : Even ⌊z⌋
    · -- hard case: `roundHalfEven z = ⌊z⌋`
      have hrz : roundHalfEven z = ⌊z⌋ := by
        unfold roundHalfEven; rw [if_pos htz, if_pos hez]
      rw [hrz]
      rcases lt_or_eq_of_le (Int.floor_mono h) with hlt | heq
      · calc roundHalfEven y ≤ ⌈y⌉ := roundHalfEven_le_ceil y
          _ ≤ ⌊y⌋ + 1 := Int.ceil_le_floor_add_one y
          _ ≤ ⌊z⌋ := by omega
      · -- same integer part; `fract y ≤ fract z = 1/2`
        have hfr : Int.fract y ≤ 1 / 2 := by
          have h1 : Int.fract y = y - (⌊y⌋ : ℝ) := Int.self_sub_floor y ▸ rfl
          have h2 : Int.fract z = z - (⌊z⌋ : ℝ) := Int.self_sub_floor z ▸ rfl
          rw [← htz, h1, h2, heq]
          linarith
        rcases lt_or_eq_of_le hfr with hflt | hfeq
        · -- `fract y < 1/2`: `roundHalfEven y = round y = ⌊y⌋`
          have hnt : Int.fract y ≠ 1 / 2 := ne_of_lt hflt
          have : roundHalfEven y = round y := by
            unfold roundHalfEven; rw [if_neg hnt]
          rw [this, round_eq]
          have hy : y < (⌊y⌋ : ℝ) + 1 / 2 := by
            have h1 : Int.fract y = y - (⌊y⌋ : ℝ) := Int.self_sub_floor y ▸ rfl
            linarith [h1 ▸ hflt]
          have : ⌊y + 1 / 2⌋ ≤ ⌊y⌋ := by
            by_contra hc
            push_neg at hc
            have h2 : ((⌊y⌋ + 1 : ℤ) : ℝ) ≤ y + 1 / 2 := by
              have := (Int.le_floor).1 hc
              push_cast at this ⊢
              linarith
            push_cast at h2
            linarith
          rw [heq] at this
          exact this
        · -- `fract y = 1/2` with the same floor: then `y = z`
          have hyz : y = z := by
            have h1 := Int.floor_add_fract y
            have h2 := Int.floor_add_fract z
            have hc : ((⌊y⌋ : ℤ) : ℝ) = ((⌊z⌋ : ℤ) : ℝ) := by exact_mod_cast heq
            rw [hfeq] at h1
            rw [htz] at h2
            linarith
          rw [hyz]
          exact le_of_eq hrz
    · -- `roundHalfEven z = ⌈z⌉ ≥ round z ≥ round y ≥ roundHalfEven y`
      have hrz : roundHalfEven z = ⌈z⌉ := by
        unfold roundHalfEven; rw [if_pos htz, if_neg hez]
      have hz : z = (⌊z⌋ : ℝ) + 1 / 2 := by
        have := Int.floor_add_fract z
        rw [htz] at this
        linarith
      have hceil : round z ≤ ⌈z⌉ := by
        rw [round_eq]
        have h1 : z + 1 / 2 < (⌈z⌉ : ℝ) + 1 := by
          have := Int.le_ceil z
          linarith
        by_contra hc
        push_neg at hc
        have h2 : ((⌈z⌉ + 1 : ℤ) : ℝ) ≤ z + 1 / 2 := by
          have := (Int.le_floor).1 hc
          push_cast at this ⊢
          linarith
        push_cast at h2
        linarith
      rw [hrz]
      exact le_trans (roundHalfEven_le_round y) (le_trans (round_mono_real h) hceil)
  · have hrz : roundHalfEven z = round z := by
      unfold roundHalfEven; rw [if_neg htz]
    rw [hrz]
    exact le_trans (roundHalfEven_le_round y) (round_mono_real h)

theorem round3_mono {y z : ℝ} (h : y ≤ z) : round3 y ≤ round3 z := by
  unfold round3
  have := roundHalfEven_mono (show (1000 : ℝ) * y ≤ 1000 * z by linarith)
  have hc : ((roundHalfEven (1000 * y) : ℝ)) ≤ (roundHalfEven (1000 * z) : ℝ) := by
    exact_mod_cast this
  linarith

theorem round3_nonneg {x : ℝ} (h : 0 ≤ x) : 0 ≤ round3 x := by
  unfold round3
  have h1 : (0 : ℤ) ≤ ⌊(1000 : ℝ) * x⌋ := by
    rw [Int.le_floor]
    push_cast
    linarith
  have h2 : (0 : ℤ) ≤ roundHalfEven (1000 * x) :=
    le_trans h1 (floor_le_roundHalfEven _)
  have : (0 : ℝ) ≤ (roundHalfEven (1000 * x) : ℝ) := by exact_mod_cast h2
  linarith

theorem round3_le_one {x : ℝ} (h : x ≤ 1) : round3 x ≤ 1 := by
  unfold round3
  have h1 : ⌈(1000 : ℝ) * x⌉ ≤ 1000 := by
    rw [Int.ceil_le]
    push_cast
    linarith
  have h2 : roundHalfEven (1000 * x) ≤ 1000 :=
    le_trans (roundHalfEven_le_ceil _) h1
  have : (roundHalfEven (1000 * x) : ℝ) ≤ 1000 := by exact_mod_cast h2
  linarith

/-! ## ConfidenceCalculator (`src/calculator/ml/confidence.py`)

`calculate_confidence` computes a weighted sum of four components and
rounds to three decimals; `classify_confidence_level` maps the score to
one of five human-readable tiers. -/

/-- Component 1 of `calculate_confidence`:
`min(np.log(1 + similar_projects_count) / np.log(100), 1.0)`. -/
noncomputable def similarityScore (similar_projects_count : ℕ) : ℝ :=
  min (Real.log (1 + similar_projects_count) / Real.log 100) 1

open Classical in
/-- Component 2 of `calculate_confidence`:
`1 / (1 + price_variance / predicted_price)` when `predicted_price > 0`
and `price_variance >= 0`, else the neutral `0.5`. -/
noncomputable def varianceScore (price_variance predicted_price : ℝ) : ℝ :=
  if 0 < predicted_price ∧ 0 ≤ price_variance then
    1 / (1 + price_variance / predicted_price)
  else 0.5

/-- Component 3 of `calculate_confidence`: `max(0.0, min(1.0, data_quality_score))`. -/
noncomputable def qualityScore (data_quality_score : ℝ) : ℝ :=
  max 0 (min 1 data_quality_score)

/-- Component 4 of `calculate_confidence`: `np.exp(-0.1 * avg_months_old)`. -/
noncomputable def temporalScore (avg_months_old : ℝ) : ℝ :=
  Real.exp (-0.1 * avg_months_old)

/-- The weighted sum inside `calculate_confidence`, before rounding. -/
noncomputable def rawConfidence (similar_projects_count : ℕ)
    (price_variance predicted_price data_quality_score avg_months_old : ℝ) : ℝ :=
  0.35 * similarityScore similar_projects_count +
  0.30 * varianceScore price_variance predicted_price +
  0.20 * qualityScore data_quality_score +
  0.15 * temporalScore avg_months_old

/-- `ConfidenceCalculator.calculate_confidence`: weighted sum of the four
components, rounded to three decimal places. -/
noncomputable def calculate_confidence (similar_projects_count : ℕ)
    (price_variance predicted_price data_quality_score avg_months_old : ℝ) : ℝ :=
  round3 (rawConfidence similar_projects_count price_variance predicted_price
    data_quality_score avg_months_old)

/-- Return value of `classify_confidence_level`:
`{'level': ..., 'color': ..., 'recommendation': ...}`. -/
structure ConfidenceLevel where
  level : String
  color : String
  recommendation : String
deriving DecidableEq

/-- The `'Sehr hoch'` tier record. -/
def sehrHochLevel : ConfidenceLevel :=
  ⟨"Sehr hoch", "green", "Vorhersage kann direkt verwendet werden."⟩

/-- The `'Hoch'` tier record. -/
def hochLevel : ConfidenceLevel :=
  ⟨"Hoch", "lightgreen", "Vorhersage ist verlässlich, manuelle Überprüfung empfohlen."⟩

/-- The `'Mittel'` tier record. -/
def mittelLevel : ConfidenceLevel :=
  ⟨"Mittel", "yellow", "Vorhersage mit Vorsicht verwenden, sorgfältige Prüfung notwendig."⟩

/-- The `'Niedrig'` tier record. -/
def niedrigLevel : ConfidenceLevel :=
  ⟨"Niedrig", "orange", "Vorhersage unsicher, manuelle Kalkulation empfohlen."⟩

/-- The `'Sehr niedrig'` tier record. -/
def sehrNiedrigLevel : ConfidenceLevel :=
  ⟨"Sehr niedrig", "red", "Vorhersage nicht verlässlich - manuelle Kalkulation erforderlich."⟩

open Classical in
/-- `ConfidenceCalculator.classify_confidence_level`: first matching
inclusive lower bound among `0.8, 0.6, 0.4, 0.2`, else the lowest tier. -/
noncomputable def classify_confidence_level (confidence : ℝ) : ConfidenceLevel :=
  if 0.8 ≤ confidence then sehrHochLevel
  else if 0.6 ≤ confidence then hochLevel
  else if 0.4 ≤ confidence then mittelLevel
  else if 0.2 ≤ confidence then niedrigLevel
  else sehrNiedrigLevel

/-! ## EmbeddingGenerator (`src/calculator/ml/embeddings.py`)

The sentence-transformer model itself is an external black box; it is
modelled by an arbitrary encoding function `enc : String → List ℝ`
(`model.encode`).  `generate_embedding` guards empty/whitespace-only
text (`if not text or not text.strip()`), `generate_embeddings_batch`
calls `model.encode` on the whole list with no such guard. -/

/-- Python's `str.strip()`: remove leading and trailing whitespace
(spelled out over the character list so that concrete runs reduce in the
kernel; Python also strips some further Unicode whitespace, which none
of the texts considered here contain). -/
def pyStrip (s : String) : String :=
  ⟨((s.data.dropWhile Char.isWhitespace).reverse.dropWhile Char.isWhitespace).reverse⟩

/-- `EmbeddingGenerator.generate_embedding`: the zero vector of
dimension 384 for empty or whitespace-only text
(`if not text or not text.strip()`), else `model.encode`. -/
noncomputable def generate_embedding (enc : String → List ℝ) (text : String) : List ℝ :=
  if text = "" ∨ pyStrip text = "" then List.replicate 384 0 else enc text

/-- `EmbeddingGenerator.generate_embeddings_batch`: `model.encode` applied
to every text, with no empty-text guard. -/
noncomputable def generate_embeddings_batch (enc : String → List ℝ)
    (texts : List String) : List (List ℝ) :=
  texts.map enc

/-- A concrete stand-in for `model.encode` that sends every text to the
all-ones 384-vector (embedding models return unit-norm vectors, never the
zero vector). -/
noncomputable def encAllOnes : String → List ℝ := fun _ => List.replicate 384 1

/-- Dot product of two equal-length float vectors. -/
noncomputable def dotList (xs ys : List ℝ) : ℝ :=
  (List.zipWith (fun a b => a * b) xs ys).sum

/-- Cosine similarity as computed by `sklearn.metrics.pairwise.cosine_similarity`
on a pair of vectors: dot product over the product of Euclidean norms
(a zero norm is replaced by 1 by sklearn's `normalize`, which coincides
with Lean's `x / 0 = 0` convention here only when the dot product is 0 —
all inputs used below have nonzero norms). -/
noncomputable def cosineSim (xs ys : List ℝ) : ℝ :=
  dotList xs ys / (Real.sqrt (dotList xs xs) * Real.sqrt (dotList ys ys))

/-- The attributes of a Django `Project` row read by
`EmbeddingGenerator.find_similar_projects`.  A missing embedding
(`None` in Python) is modelled by the empty list, which is skipped by
the same falsiness test as in the source. -/
structure SimProject where
  id : String
  name : String
  project_type : String
  description_embedding : List ℝ
  final_price : Option ℝ
  project_date : ℤ

/-- One entry of the result list of `find_similar_projects`:
`{'id', 'name', 'type', 'similarity', 'price'}`. -/
structure SimResult where
  id : String
  name : String
  type : String
  similarity : ℝ
  price : ℝ

/-- The result dict built for a project that passes the threshold. -/
noncomputable def mkSimResult (query_embedding : List ℝ) (p : SimProject) : SimResult :=
  { id := p.id
    name := p.name
    type := p.project_type
    similarity := cosineSim query_embedding p.description_embedding
    price := p.final_price.getD 0 }

open Classical in
/-- One iteration of the corpus loop in `find_similar_projects`: skip
projects without an embedding, skip projects whose embedding has the
wrong dimension (numpy raises, the `except` clause continues), and keep
a result dict only when the similarity strictly exceeds `0.3`. -/
noncomputable def simEntry (query_embedding : List ℝ) (p : SimProject) : Option SimResult :=
  if p.description_embedding.isEmpty then none
  else if p.description_embedding.length = query_embedding.length then
    if 0.3 < cosineSim query_embedding p.description_embedding then
      some (mkSimResult query_embedding p)
    else none
  else none

/-- The descending-by-similarity order used by
`results.sort(key=lambda x: x['similarity'], reverse=True)`. -/
def simDescOrder (a b : SimResult) : Prop := b.similarity ≤ a.similarity

instance : IsTotal SimResult simDescOrder :=
  ⟨fun a b => le_total b.similarity a.similarity⟩

instance : IsTrans SimResult simDescOrder :=
  ⟨fun _ _ _ hab hbc => le_trans hbc hab⟩

noncomputable instance : DecidableRel simDescOrder :=
  fun _ _ => Classical.propDecidable _

/-- `EmbeddingGenerator.find_similar_projects`: filter the corpus through
`simEntry`, sort descending by similarity (Python's `list.sort` is a
stable sort, modelled extensionally by the stable `List.insertionSort`),
and keep the first `top_k` entries. -/
noncomputable def find_similar_projects (query_embedding : List ℝ)
    (projects : List SimProject) (top_k : ℕ) : List SimResult :=
  (List.insertionSort simDescOrder
    (projects.filterMap (simEntry query_embedding))).take top_k

/-! ## PricePredictor (`src/calculator/ml/price_predictor.py`)

The XGBoost regressor is an external black box, modelled as an abstract
function applied after feature preparation.  Python exceptions become an
explicit error type. -/

/-- Python exceptions raised by the ML core.  `valueError` is the builtin
`ValueError` (raised by `train`, `predict` and by scikit-learn's
`LabelEncoder.transform` on unseen labels).

`insufficientDataError` is modelled from the spec: §7 of the spec names
an `InsufficientDataError` in its error taxonomy, but no class of that
name exists anywhere under `src/`. -/
inductive PyErr where
  | valueError (msg : String)
  | insufficientDataError (msg : String)
deriving DecidableEq

/-- One row of the training queryset:
`values('total_area_sqm', 'wood_type', 'project_type', 'region',
'complexity', 'final_price', 'project_date')`. -/
structure TrainRow where
  total_area_sqm : ℚ
  wood_type : String
  project_type : String
  region : String
  complexity : ℚ
  final_price : ℚ
  project_date : ℤ
deriving DecidableEq

/-- `PricePredictor.train` up to its minimum-sample gate: fewer than 30
rows raises `ValueError`; otherwise feature preparation and the XGBoost
fit run, abstracted as `fit` (the gate is the only control path that can
refuse to produce a model). -/
def train {M : Type} (fit : List TrainRow → M) (rows : List TrainRow) : Except PyErr M :=
  if rows.length < 30 then
    Except.error (PyErr.valueError
      ("Mindestens 30 Projekte benötigt, nur " ++ toString rows.length ++ " vorhanden."))
  else
    Except.ok (fit rows)

/-- A fitted `sklearn.preprocessing.LabelEncoder`: its sorted list of
known classes. -/
structure LabelEncoderState where
  classes : List String
deriving DecidableEq

/-- `LabelEncoder.fit`: the sorted deduplicated class list (`np.unique`). -/
def fitClasses (xs : List String) : LabelEncoderState :=
  ⟨List.insertionSort (fun a b : String => a ≤ b) xs.dedup⟩

/-- `LabelEncoder.transform` on a single value: its index among the
classes, or the scikit-learn `ValueError` for a previously unseen label. -/
def leTransform (st : LabelEncoderState) (v : String) : Except PyErr ℕ :=
  if v ∈ st.classes then Except.ok (st.classes.indexOf v)
  else Except.error (PyErr.valueError ("y contains previously unseen labels: " ++ v))

/-- The `label_encoders` dict of `PricePredictor`, one optional fitted
encoder per categorical column. -/
structure PPEncoders where
  wood_type : Option LabelEncoderState
  project_type : Option LabelEncoderState
  region : Option LabelEncoderState
deriving DecidableEq

/-- The `if col not in self.label_encoders: fit` step of
`prepare_features` for one column of a single-row frame, followed by
`transform`. -/
def encodeCol (st : Option LabelEncoderState) (v : String) :
    LabelEncoderState × Except PyErr ℕ :=
  match st with
  | some s => (s, leTransform s v)
  | none => (fitClasses [v], leTransform (fitClasses [v]) v)

/-- A single prediction input dict (`project_data` in
`PricePredictor.predict`); `project_date` is `none` when the key is
absent, in which case the temporal features are not built. -/
structure PredictRow where
  total_area_sqm : ℚ
  complexity : ℚ
  wood_type : String
  project_type : String
  region : String
  project_date : Option ℤ
deriving DecidableEq

/-- The feature frame built by `PricePredictor.prepare_features` for one
row; the temporal columns exist only when `project_date` was present. -/
structure PPFeatures where
  total_area_sqm : ℚ
  complexity : ℚ
  wood_type_encoded : ℕ
  project_type_encoded : ℕ
  region_encoded : ℕ
  wood_area_interaction : ℚ
  complexity_area_interaction : ℚ
  months_old : Option ℚ
  is_recent : Option ℚ
deriving DecidableEq

/-- `PricePredictor.prepare_features` on a single-row frame, threading
the encoder state (columns are encoded in source order `wood_type`,
`project_type`, `region`; the first unseen label raises, so later
columns are not fitted).  `nowDays` stands for `pd.Timestamp.now()`
measured in days. -/
def prepare_features_row (nowDays : ℤ) (encs : PPEncoders) (row : PredictRow) :
    PPEncoders × Except PyErr PPFeatures :=
  let w := encodeCol encs.wood_type row.wood_type
  match w.2 with
  | Except.error e => ({ encs with wood_type := some w.1 }, Except.error e)
  | Except.ok wI =>
    let p := encodeCol encs.project_type row.project_type
    match p.2 with
    | Except.error e =>
        ({ encs with wood_type := some w.1, project_type := some p.1 }, Except.error e)
    | Except.ok pI =>
      let r := encodeCol encs.region row.region
      let encs' : PPEncoders := ⟨some w.1, some p.1, some r.1⟩
      match r.2 with
      | Except.error e => (encs', Except.error e)
      | Except.ok rI =>
          (encs',
           Except.ok
             { total_area_sqm := row.total_area_sqm
               complexity := row.complexity
               wood_type_encoded := wI
               project_type_encoded := pI
               region_encoded := rI
               wood_area_interaction := row.total_area_sqm * ((wI : ℚ) + 1)
               complexity_area_interaction := row.total_area_sqm * row.complexity
               months_old := row.project_date.map
                 (fun d => ((nowDays - d : ℤ) : ℚ) / 30)
               is_recent := row.project_date.map
                 (fun d => if ((nowDays - d : ℤ) : ℚ) / 30 < 6 then 1 else 0) })

/-- `PricePredictor.predict`: `ValueError` when no model is loaded, else
feature preparation (which may itself raise on an unseen categorical
value) followed by the regressor, abstracted as `model`. -/
def predict (model : Option (PPFeatures → ℚ)) (nowDays : ℤ) (encs : PPEncoders)
    (row : PredictRow) : Except PyErr ℚ :=
  match model with
  | none => Except.error (PyErr.valueError "Modell muss erst trainiert oder geladen werden.")
  | some f => (prepare_features_row nowDays encs row).2.map f

/-! ## FeatureEngineer (`src/calculator/ml/feature_engineer.py`) -/

/-- The project dict consumed by `FeatureEngineer.extract_features`:
outer `Option` = key present in the dict; for `project_date` the inner
`Option` distinguishes a parseable date (a day number) from a value on
which `pd.to_datetime` raises (the bare `except` branch). -/
structure AttrDict where
  total_area_sqm : Option ℚ
  complexity : Option ℤ
  wood_type : Option String
  project_type : Option String
  region : Option String
  project_date : Option (Option ℤ)
deriving DecidableEq

/-- The feature dict returned by `FeatureEngineer.extract_features`. -/
structure FEFeatures where
  total_area_sqm : ℚ
  complexity : ℤ
  wood_type : String
  project_type : String
  region : String
  area_per_complexity : ℚ
  months_old : ℚ
  is_recent : ℤ
deriving DecidableEq

/-- `FeatureEngineer.extract_features`.  `nowDays` stands for
`datetime.now()` measured in days: the source computes
`days_old = (datetime.now() - project_date).days`, so the current wall
clock is an input of the computation. -/
def extract_features (nowDays : ℤ) (d : AttrDict) : FEFeatures :=
  let area := d.total_area_sqm.getD 0
  let comp := d.complexity.getD 1
  let temporal : ℚ × ℤ :=
    match d.project_date with
    | none => (0, 0)
    | some none => (0, 0)
    | some (some pd) =>
        let daysOld := nowDays - pd
        (max 0 ((daysOld : ℚ) / 30), if daysOld < 180 then 1 else 0)
  { total_area_sqm := area
    complexity := comp
    wood_type := d.wood_type.getD "Unbekannt"
    project_type := d.project_type.getD "Sonstiges"
    region := d.region.getD "Deutschland"
    area_per_complexity := area / ((max comp 1 : ℤ) : ℚ)
    months_old := temporal.1
    is_recent := temporal.2 }

/-! ## Concrete fixtures used by witnesses and counterexamples -/

/-- A concrete training-queryset row. -/
def demoTrainRow : TrainRow := ⟨20, "Eiche", "Tisch", "Bayern", 3, 1500, 0⟩

/-- Encoders as fitted at training time on a corpus whose wood types were
`Buche` and `Eiche`. -/
def demoEncoders : PPEncoders :=
  ⟨some ⟨["Buche", "Eiche"]⟩, some ⟨["Tisch"]⟩, some ⟨["Bayern"]⟩⟩

/-- A prediction input whose `wood_type` was never seen at training time. -/
def demoUnseenRow : PredictRow := ⟨20, 3, "Nussbaum", "Tisch", "Bayern", none⟩

/-- Project attributes without a `project_date` key. -/
def demoAttrsNoDate : AttrDict :=
  ⟨some 20, some 3, some "Eiche", some "Tisch", some "Bayern", none⟩

/-- Project attributes dated day 0. -/
def demoAttrsDated : AttrDict :=
  ⟨some 20, some 3, some "Eiche", some "Tisch", some "Bayern", some (some 0)⟩

/-! ## C3 — minimum training sample count -/

/-- C3 (amended): whenever `train` is called with fewer than 30 rows it
raises the builtin `ValueError` (`"Mindestens 30 Projekte benötigt, ..."`)
— not an `InsufficientDataError`, which exists nowhere in the code — and
the fit is never run, so no degraded model is produced. -/
theorem train_lt30_raises_valueError {M : Type} (fit : List TrainRow → M)
    (rows : List TrainRow) (h : rows.length < 30) :
    train fit rows = Except.error (PyErr.valueError
      ("Mindestens 30 Projekte benötigt, nur " ++ toString rows.length ++ " vorhanden.")) := by
  unfold train
  rw [if_pos h]

/-- Witness for C3: ten rows trip the gate. -/
theorem train_lt30_raises_valueError_witness :
    (List.replicate 10 demoTrainRow).length < 30 ∧
    train (fun _ => ()) (List.replicate 10 demoTrainRow) = Except.error (PyErr.valueError
      ("Mindestens 30 Projekte benötigt, nur " ++
        toString (List.replicate 10 demoTrainRow).length ++ " vorhanden.")) :=
  ⟨by decide,
   @train_lt30_raises_valueError Unit (fun _ => ()) (List.replicate 10 demoTrainRow) (by decide)⟩

/-- Counterexample for C3 as stated: with 10 rows, `train` raises the
plain builtin `ValueError` — the ordinary validation error type — and no
distinct `InsufficientDataError` (the error raised is not of that kind). -/
theorem train_lt30_not_insufficientDataError :
    train (fun _ => ()) (List.replicate 10 demoTrainRow) = Except.error
      (PyErr.valueError "Mindestens 30 Projekte benötigt, nur 10 vorhanden.") ∧
    PyErr.valueError "Mindestens 30 Projekte benötigt, nur 10 vorhanden." ≠
      PyErr.insufficientDataError "Mindestens 30 Projekte benötigt, nur 10 vorhanden." := by
  constructor
  · rfl
  · decide

/-! ## C4 — unseen categorical value at prediction time -/

/-- C4 (amended): with a trained model and encoders fitted at training
time, `predict` on an input whose `wood_type` was never seen raises the
scikit-learn `ValueError` from `LabelEncoder.transform`; no fallback
bucket exists and no price is returned. -/
theorem predict_unseen_label_raises (f : PPFeatures → ℚ) (nowDays : ℤ)
    (encs : PPEncoders) (row : PredictRow) (st : LabelEncoderState)
    (hw : encs.wood_type = some st) (hun : row.wood_type ∉ st.classes) :
    predict (some f) nowDays encs row = Except.error
      (PyErr.valueError ("y contains previously unseen labels: " ++ row.wood_type)) := by
  unfold predict prepare_features_row encodeCol
  rw [hw]
  simp [leTransform, hun, Except.map]

/-- Witness for C4: the concrete fitted encoders and an unseen
`wood_type` value `Nussbaum`. -/
theorem predict_unseen_label_raises_witness :
    demoUnseenRow.wood_type ∉ (["Buche", "Eiche"] : List String) ∧
    predict (some fun _ => (0 : ℚ)) 0 demoEncoders demoUnseenRow = Except.error
      (PyErr.valueError ("y contains previously unseen labels: " ++ demoUnseenRow.wood_type)) :=
  ⟨by decide,
   predict_unseen_label_raises (fun _ => 0) 0 demoEncoders demoUnseenRow
     ⟨["Buche", "Eiche"]⟩ rfl (by decide)⟩

/-- Counterexample for C4 as stated: `predict` does raise on the unseen
`wood_type` `Nussbaum` instead of resolving it to a fallback bucket and
returning a price. -/
theorem predict_unseen_label_counterexample :
    predict (some fun _ => (0 : ℚ)) 0 demoEncoders demoUnseenRow = Except.error
      (PyErr.valueError "y contains previously unseen labels: Nussbaum") := by
  rfl

/-! ## C9 — determinism of feature extraction -/

/-- C9 (amended): `extract_features` is a deterministic function of the
attributes and the current wall-clock time; when the attributes carry no
parseable `project_date`, the output is independent of the clock, so
repeated calls agree. -/
theorem extract_features_clock_independent_without_date (t1 t2 : ℤ) (d : AttrDict)
    (h : d.project_date = none ∨ d.project_date = some none) :
    extract_features t1 d = extract_features t2 d := by
  unfold extract_features
  rcases h with h | h <;> rw [h]

/-- Witness for C9: a dateless attribute dict evaluated at two distant
clock readings. -/
theorem extract_features_clock_independent_witness :
    (demoAttrsNoDate.project_date = none ∨ demoAttrsNoDate.project_date = some none) ∧
    extract_features 0 demoAttrsNoDate = extract_features 3000 demoAttrsNoDate :=
  ⟨Or.inl rfl,
   extract_features_clock_independent_without_date 0 3000 demoAttrsNoDate (Or.inl rfl)⟩

/-- Counterexample for C9 as stated: on attributes carrying a
`project_date`, two calls with the same attributes (and no encoder state
at all) at clock readings 3000 days apart return different feature
vectors (`months_old` 0 versus 100), so the wall clock is a hidden input. -/
theorem extract_features_clock_dependent :
    extract_features 0 demoAttrsDated ≠ extract_features 3000 demoAttrsDated := by
  intro h
  have h2 := congrArg FEFeatures.months_old h
  norm_num [extract_features, demoAttrsDated, max_def] at h2

/-! ## C6 — batch versus single-text embedding -/

/-- C6 (amended): for every encoding model and every list of texts none
of which is empty or whitespace-only, `generate_embeddings_batch` returns
exactly `generate_embedding` mapped over the list; the zero-vector
normalization for blank texts exists only in the single-text path. -/
theorem batch_eq_map_single_on_nonblank (enc : String → List ℝ) (texts : List String)
    (h : ∀ t ∈ texts, ¬(t = "" ∨ pyStrip t = "")) :
    generate_embeddings_batch enc texts = texts.map (generate_embedding enc) := by
  unfold generate_embeddings_batch generate_embedding
  exact List.map_congr_left fun t ht => by rw [if_neg (h t ht)]

/-- Witness for C6: a one-element batch of non-blank text. -/
theorem batch_eq_map_single_witness :
    (∀ t ∈ (["Eiche"] : List String), ¬(t = "" ∨ pyStrip t = "")) ∧
    generate_embeddings_batch encAllOnes ["Eiche"] =
      (["Eiche"] : List String).map (generate_embedding encAllOnes) :=
  ⟨by decide, batch_eq_map_single_on_nonblank encAllOnes ["Eiche"] (by decide)⟩

/-- Counterexample for C6 as stated: on the list `[""]` the batch
operation encodes the empty string through the model (here a model whose
vectors are all-ones, as a unit-norm embedding model never returns the
zero vector) while the single-text operation returns the zero vector, so
the two disagree. -/
theorem batch_ne_map_single_on_blank :
    generate_embeddings_batch encAllOnes [""] ≠
      (([""] : List String).map (generate_embedding encAllOnes)) := by
  intro h
  unfold generate_embeddings_batch generate_embedding encAllOnes at h
  simp only [List.map_cons, List.map_nil, if_pos (Or.inl rfl), List.cons.injEq] at h
  have h1 := h.1
  rw [show (384 : ℕ) = 383 + 1 by norm_num, List.replicate_succ, List.replicate_succ] at h1
  have : (1 : ℝ) = 0 := (List.cons.injEq _ _ _ _ ▸ h1).1
  norm_num at this

/-! ## Bounds on the four confidence components -/

theorem log100_pos : 0 < Real.log 100 := Real.log_pos (by norm_num)

theorem similarityScore_nonneg (n : ℕ) : 0 ≤ similarityScore n := by
  unfold similarityScore
  apply le_min
  · apply div_nonneg
    · apply Real.log_nonneg
      have : (0 : ℝ) ≤ n := Nat.cast_nonneg n
      linarith
    · exact le_of_lt log100_pos
  · norm_num

theorem similarityScore_le_one (n : ℕ) : similarityScore n ≤ 1 := min_le_right _ _

theorem similarityScore_zero : similarityScore 0 = 0 := by
  unfold similarityScore
  norm_num

theorem similarityScore_mono {n n' : ℕ} (h : n ≤ n') :
    similarityScore n ≤ similarityScore n' := by
  unfold similarityScore
  apply min_le_min _ le_rfl
  apply (div_le_div_iff_of_pos_right log100_pos).mpr
  apply Real.log_le_log
  · have : (0 : ℝ) ≤ n := Nat.cast_nonneg n
    linarith
  · have : (n : ℝ) ≤ n' := Nat.cast_le.mpr h
    linarith

theorem varianceScore_nonneg (pv pp : ℝ) : 0 ≤ varianceScore pv pp := by
  unfold varianceScore
  split
  · rename_i hc
    obtain ⟨hp, hv⟩ := hc
    positivity
  · norm_num

theorem varianceScore_le_one (pv pp : ℝ) : varianceScore pv pp ≤ 1 := by
  unfold varianceScore
  split
  · rename_i hc
    obtain ⟨hp, hv⟩ := hc
    have hd : 0 ≤ pv / pp := div_nonneg hv (le_of_lt hp)
    rw [div_le_one (by linarith)]
    linarith
  · norm_num

theorem qualityScore_nonneg (q : ℝ) : 0 ≤ qualityScore q := le_max_left _ _

theorem qualityScore_le_one (q : ℝ) : qualityScore q ≤ 1 :=
  max_le (by norm_num) (min_le_left _ _)

theorem qualityScore_mono {q q' : ℝ} (h : q ≤ q') :
    qualityScore q ≤ qualityScore q' :=
  max_le_max le_rfl (min_le_min le_rfl h)

theorem temporalScore_nonneg (m : ℝ) : 0 ≤ temporalScore m := (Real.exp_pos _).le

theorem temporalScore_le_one {m : ℝ} (hm : 0 ≤ m) : temporalScore m ≤ 1 := by
  unfold temporalScore
  rw [show (1 : ℝ) = Real.exp 0 from Real.exp_zero.symm]
  apply Real.exp_le_exp.mpr
  linarith

theorem rawConfidence_nonneg (n : ℕ) (pv pp q m : ℝ) :
    0 ≤ rawConfidence n pv pp q m := by
  unfold rawConfidence
  have h1 := similarityScore_nonneg n
  have h2 := varianceScore_nonneg pv pp
  have h3 := qualityScore_nonneg q
  have h4 := temporalScore_nonneg m
  linarith

theorem rawConfidence_le_one (n : ℕ) (pv pp q : ℝ) {m : ℝ} (hm : 0 ≤ m) :
    rawConfidence n pv pp q m ≤ 1 := by
  unfold rawConfidence
  have h1 := similarityScore_le_one n
  have h2 := varianceScore_le_one pv pp
  have h3 := qualityScore_le_one q
  have h4 := temporalScore_le_one hm
  linarith

/-! ## C7 — range of `calculate_confidence` -/

/-- C7 (amended): for every `similar_count ≥ 0` and any price variance,
predicted price and data-quality score, *and for `avg_months_old ≥ 0`*,
`calculate_confidence` lies in `[0, 1]` (the temporal component
`exp(-0.1·months)` is not bounded above for negative ages, so the
restriction to nonnegative ages is necessary); with `similar_count = 0`
the similarity component is exactly `0`, not an error. -/
theorem calculate_confidence_in_unit_interval (n : ℕ) (pv pp q : ℝ) {m : ℝ}
    (hm : 0 ≤ m) :
    (0 ≤ calculate_confidence n pv pp q m ∧ calculate_confidence n pv pp q m ≤ 1) ∧
    similarityScore 0 = 0 :=
  ⟨⟨round3_nonneg (rawConfidence_nonneg n pv pp q m),
    round3_le_one (rawConfidence_le_one n pv pp q hm)⟩,
   similarityScore_zero⟩

/-- Witness for C7 (amended) at a concrete input. -/
theorem calculate_confidence_in_unit_interval_witness :
    (0 : ℝ) ≤ 2 ∧
    (0 ≤ calculate_confidence 3 1 1 (1/2) 2 ∧ calculate_confidence 3 1 1 (1/2) 2 ≤ 1) :=
  ⟨by norm_num, (calculate_confidence_in_unit_interval 3 1 1 (1/2) (by norm_num)).1⟩

theorem round3_gap_lt (x : ℝ) : x - 1 / 1000 < round3 x := by
  unfold round3
  have h1 : (1000 : ℝ) * x - 1 < (⌊(1000 : ℝ) * x⌋ : ℝ) := Int.sub_one_lt_floor _
  have h2 : ((⌊(1000 : ℝ) * x⌋ : ℤ) : ℝ) ≤ (roundHalfEven ((1000 : ℝ) * x) : ℝ) := by
    exact_mod_cast floor_le_roundHalfEven ((1000 : ℝ) * x)
  linarith

/-- Counterexample for C7 as stated: with a *negative* `avg_months_old`
(a project dated in the future), the temporal component exceeds 1 before
weighting and the returned confidence exceeds 1 — so the claimed bound
over "any avg_months_old input" fails. -/
theorem calculate_confidence_gt_one_for_negative_age :
    1 < calculate_confidence 0 1 1 0 (-100) := by
  have hvar : varianceScore 1 1 = 1 / 2 := by
    unfold varianceScore
    rw [if_pos ⟨by norm_num, by norm_num⟩]
    norm_num
  have hqual : qualityScore 0 = 0 := by
    unfold qualityScore
    norm_num
  have htemp : (11 : ℝ) ≤ temporalScore (-100) := by
    unfold temporalScore
    have h := Real.add_one_le_exp (10 : ℝ)
    have he : Real.exp (-0.1 * (-100 : ℝ)) = Real.exp 10 := by norm_num
    rw [he]
    linarith
  have hraw : (1.8 : ℝ) ≤ rawConfidence 0 1 1 0 (-100) := by
    unfold rawConfidence
    rw [hvar, hqual, similarityScore_zero]
    linarith
  unfold calculate_confidence
  have := round3_gap_lt (rawConfidence 0 1 1 0 (-100))
  linarith

/-! ## C8 — monotonicity of `calculate_confidence` -/

/-- C8: holding the other four inputs fixed, `calculate_confidence` is
monotonically non-decreasing in `similar_projects_count`, and likewise
in `data_quality_score` (every stage — component, weighted sum and the
final rounding — is monotone). -/
theorem calculate_confidence_monotone :
    (∀ (n n' : ℕ) (pv pp q m : ℝ), n ≤ n' →
      calculate_confidence n pv pp q m ≤ calculate_confidence n' pv pp q m) ∧
    (∀ (n : ℕ) (pv pp q q' m : ℝ), q ≤ q' →
      calculate_confidence n pv pp q m ≤ calculate_confidence n pv pp q' m) := by
  constructor
  · intro n n' pv pp q m h
    apply round3_mono
    unfold rawConfidence
    have hs := similarityScore_mono h
    linarith
  · intro n pv pp q q' m h
    apply round3_mono
    unfold rawConfidence
    have hq := qualityScore_mono h
    linarith

/-- Witness for C8 at concrete inputs. -/
theorem calculate_confidence_monotone_witness :
    ((1 : ℕ) ≤ 2 ∧
      calculate_confidence 1 0 0 0 0 ≤ calculate_confidence 2 0 0 0 0) ∧
    ((0.3 : ℝ) ≤ 0.4 ∧
      calculate_confidence 1 0 0 0.3 0 ≤ calculate_confidence 1 0 0 0.4 0) :=
  ⟨⟨by norm_num, calculate_confidence_monotone.1 1 2 0 0 0 0 (by norm_num)⟩,
   ⟨by norm_num, calculate_confidence_monotone.2 1 0 0 0.3 0.4 0 (by norm_num)⟩⟩

/-! ## C1 — the §4.5 scenario -/

theorem log_ratio_lb : (777 / 2000 : ℝ) ≤ Real.log 6 / Real.log 100 := by
  rw [le_div_iff₀ log100_pos]
  have h3 : Real.log ((100 : ℝ) ^ (777 : ℕ)) ≤ Real.log ((6 : ℝ) ^ (2000 : ℕ)) := by
    apply Real.log_le_log (by positivity)
    norm_num
  rw [Real.log_pow, Real.log_pow] at h3
  push_cast at h3
  linarith

theorem log_ratio_ub : Real.log 6 / Real.log 100 ≤ (2 / 5 : ℝ) := by
  rw [div_le_iff₀ log100_pos]
  have h3 : Real.log ((6 : ℝ) ^ (5 : ℕ)) ≤ Real.log ((100 : ℝ) ^ (2 : ℕ)) := by
    apply Real.log_le_log (by positivity)
    norm_num
  rw [Real.log_pow, Real.log_pow] at h3
  push_cast at h3
  linarith

theorem exp_neg_point_one_lb : (0.9 : ℝ) ≤ Real.exp (-0.1) := by
  have := Real.add_one_le_exp (-0.1 : ℝ)
  linarith

theorem exp_neg_point_one_ub : Real.exp (-0.1) ≤ (10 / 11 : ℝ) := by
  have h1 : (1.1 : ℝ) ≤ Real.exp 0.1 := by
    have := Real.add_one_le_exp (0.1 : ℝ)
    linarith
  have hpos : (0 : ℝ) < Real.exp 0.1 := Real.exp_pos _
  rw [show (-0.1 : ℝ) = -(0.1) by norm_num, Real.exp_neg]
  calc (Real.exp 0.1)⁻¹ = 1 / Real.exp 0.1 := (one_div _).symm
    _ ≤ 10 / 11 := by
        rw [div_le_div_iff₀ hpos (by norm_num)]
        linarith

theorem temporalScore_six_bounds :
    (0.531441 : ℝ) ≤ temporalScore 6 ∧ temporalScore 6 ≤ (1000000 / 1771561 : ℝ) := by
  unfold temporalScore
  have he : Real.exp (-0.1 * (6 : ℝ)) = Real.exp (-0.1) ^ (6 : ℕ) := by
    rw [← Real.exp_nat_mul]
    norm_num
  rw [he]
  constructor
  · calc (0.531441 : ℝ) = (0.9 : ℝ) ^ (6 : ℕ) := by norm_num
      _ ≤ Real.exp (-0.1) ^ (6 : ℕ) := pow_le_pow_left₀ (by norm_num) exp_neg_point_one_lb 6
  · calc Real.exp (-0.1) ^ (6 : ℕ) ≤ (10 / 11 : ℝ) ^ (6 : ℕ) :=
        pow_le_pow_left₀ (Real.exp_pos _).le exp_neg_point_one_ub 6
      _ = (1000000 / 1771561 : ℝ) := by norm_num

theorem confidence_scenario_bounds :
    0.6 ≤ calculate_confidence 5 5000 15000 0.8 6 ∧
    calculate_confidence 5 5000 15000 0.8 6 ≤ 0.61 := by
  have h6 : (1 : ℝ) + ((5 : ℕ) : ℝ) = 6 := by push_cast; norm_num
  have hsim_lb : (777 / 2000 : ℝ) ≤ similarityScore 5 := by
    unfold similarityScore
    rw [h6]
    exact le_min log_ratio_lb (by norm_num)
  have hsim_ub : similarityScore 5 ≤ (2 / 5 : ℝ) := by
    unfold similarityScore
    rw [h6]
    exact le_trans (min_le_left _ _) log_ratio_ub
  have hvar : varianceScore 5000 15000 = 3 / 4 := by
    unfold varianceScore
    rw [if_pos ⟨by norm_num, by norm_num⟩]
    norm_num
  have hqual : qualityScore 0.8 = 0.8 := by
    unfold qualityScore
    norm_num
  obtain ⟨ht1, ht2⟩ := temporalScore_six_bounds
  have hraw1 : (0.6005 : ℝ) ≤ rawConfidence 5 5000 15000 0.8 6 := by
    unfold rawConfidence
    rw [hvar, hqual]
    linarith
  have hraw2 : rawConfidence 5 5000 15000 0.8 6 ≤ (0.6097 : ℝ) := by
    unfold rawConfidence
    rw [hvar, hqual]
    linarith
  constructor
  · unfold calculate_confidence round3
    have h1 : (600 : ℤ) ≤ ⌊(1000 : ℝ) * rawConfidence 5 5000 15000 0.8 6⌋ := by
      rw [Int.le_floor]
      push_cast
      linarith
    have h2 : ((600 : ℤ) : ℝ) ≤
        (roundHalfEven ((1000 : ℝ) * rawConfidence 5 5000 15000 0.8 6) : ℝ) := by
      exact_mod_cast le_trans h1 (floor_le_roundHalfEven _)
    push_cast at h2
    linarith
  · unfold calculate_confidence round3
    have h1 : ⌈(1000 : ℝ) * rawConfidence 5 5000 15000 0.8 6⌉ ≤ (610 : ℤ) := by
      rw [Int.ceil_le]
      push_cast
      linarith
    have h2 : (roundHalfEven ((1000 : ℝ) * rawConfidence 5 5000 15000 0.8 6) : ℝ) ≤
        ((610 : ℤ) : ℝ) := by
      exact_mod_cast le_trans (roundHalfEven_le_ceil _) h1
    push_cast at h2
    linarith

/-- C1 (amended): for the inputs `similar_projects_count=5`,
`price_variance=5000`, `predicted_price=15000`,
`data_quality_score=0.8`, `avg_months_old=6`, `calculate_confidence`
returns the §4.5 weighted sum rounded to 3 decimal places — which is
≈0.6035 and hence lands in `[0.6, 0.61]`, not ≈0.638 — and classifying
that value yields the `'Hoch'` tier (the `≥ 0.6` branch). -/
theorem confidence_scenario_high_tier :
    0.6 ≤ calculate_confidence 5 5000 15000 0.8 6 ∧
    calculate_confidence 5 5000 15000 0.8 6 ≤ 0.61 ∧
    classify_confidence_level (calculate_confidence 5 5000 15000 0.8 6) = hochLevel := by
  obtain ⟨h1, h2⟩ := confidence_scenario_bounds
  refine ⟨h1, h2, ?_⟩
  unfold classify_confidence_level
  rw [if_neg (by linarith), if_pos h1]

/-- Counterexample for C1 as stated: the confidence returned at the §4.5
scenario inputs is below 0.633, so it is not ≈0.638 (the spec's own
arithmetic for its formula is off: the weighted sum is ≈0.6035). -/
theorem confidence_scenario_below_0633 :
    calculate_confidence 5 5000 15000 0.8 6 < 0.633 := by
  have h := confidence_scenario_bounds
  linarith [h.2]

/-! ## C2 / C5 — threshold and ordering of `find_similar_projects` -/

/-- The query vector used in the concrete retrieval runs. -/
noncomputable def demoQuery : List ℝ := [1, 0]

/-- An older finalized project whose embedding equals the query. -/
noncomputable def demoProjOlder : SimProject :=
  ⟨"p-old", "Alt", "Tisch", [1, 0], some 100, 0⟩

/-- A newer finalized project with the same embedding (hence the same
similarity to the query) as `demoProjOlder`. -/
noncomputable def demoProjNewer : SimProject :=
  ⟨"p-new", "Neu", "Tisch", [1, 0], some 200, 100⟩

/-- A project whose cosine similarity to `demoQuery` is exactly the
threshold `0.3`: the unit vector `[0.3, √0.91]`. -/
noncomputable def demoProjAtThreshold : SimProject :=
  ⟨"p-thr", "Grenze", "Tisch", [0.3, Real.sqrt 0.91], some 100, 0⟩

theorem cosineSim_unit_pair : cosineSim ([1, 0] : List ℝ) ([1, 0] : List ℝ) = 1 := by
  unfold cosineSim dotList
  simp

theorem cosineSim_at_threshold :
    cosineSim demoQuery ([0.3, Real.sqrt 0.91] : List ℝ) = 0.3 := by
  unfold cosineSim dotList demoQuery
  simp
  rw [show (0.3 : ℝ) * 0.3 + Real.sqrt 0.91 * Real.sqrt 0.91 = 1 by
    rw [Real.mul_self_sqrt (by norm_num)]; norm_num]
  norm_num [Real.sqrt_one]

theorem simEntry_unit (p : SimProject) (hemb : p.description_embedding = [1, 0]) :
    simEntry demoQuery p = some (mkSimResult demoQuery p) := by
  unfold simEntry
  rw [hemb]
  have hc : cosineSim demoQuery ([1, 0] : List ℝ) = 1 := cosineSim_unit_pair
  simp only [demoQuery] at hc ⊢
  simp [hc]
  norm_num

theorem find_similar_single_unit :
    find_similar_projects demoQuery [demoProjOlder] 5 =
      [mkSimResult demoQuery demoProjOlder] := by
  unfold find_similar_projects
  rw [List.filterMap_cons, simEntry_unit demoProjOlder rfl]
  simp [List.insertionSort, List.orderedInsert]

/-- C2 (amended): for every query vector, corpus and `top_k`, every
entry returned by `find_similar_projects` has similarity strictly
greater than the fixed threshold `0.3` (entries exactly at the threshold
are excluded by the strict comparison `similarity > 0.3`), and the
returned list is sorted in descending order of similarity. -/
theorem find_similar_threshold_strict_and_sorted (q : List ℝ)
    (ps : List SimProject) (k : ℕ) :
    (∀ r ∈ find_similar_projects q ps k, 0.3 < r.similarity) ∧
    List.Sorted simDescOrder (find_similar_projects q ps k) := by
  constructor
  · intro r hr
    have hr2 : r ∈ List.insertionSort simDescOrder (ps.filterMap (simEntry q)) :=
      List.take_subset k _ hr
    have hr3 : r ∈ ps.filterMap (simEntry q) :=
      (List.perm_insertionSort simDescOrder _).subset hr2
    obtain ⟨p, _, he⟩ := List.mem_filterMap.1 hr3
    unfold simEntry at he
    split at he
    · exact Option.noConfusion he
    · split at he
      · split at he
        · rename_i hgt
          injection he with he
          rw [← he]
          exact hgt
        · exact Option.noConfusion he
      · exact Option.noConfusion he
  · exact List.Pairwise.sublist (List.take_sublist k _)
      (List.sorted_insertionSort simDescOrder _)

/-- Witness for C2: a one-project corpus at similarity 1; the returned
entry clears the threshold and the result is sorted. -/
theorem find_similar_threshold_witness :
    (mkSimResult demoQuery demoProjOlder ∈ find_similar_projects demoQuery [demoProjOlder] 5) ∧
    0.3 < (mkSimResult demoQuery demoProjOlder).similarity ∧
    List.Sorted simDescOrder (find_similar_projects demoQuery [demoProjOlder] 5) := by
  have hmem : mkSimResult demoQuery demoProjOlder ∈
      find_similar_projects demoQuery [demoProjOlder] 5 := by
    rw [find_similar_single_unit]
    exact List.mem_singleton.2 rfl
  exact ⟨hmem,
    (find_similar_threshold_strict_and_sorted demoQuery [demoProjOlder] 5).1 _ hmem,
    (find_similar_threshold_strict_and_sorted demoQuery [demoProjOlder] 5).2⟩

/-- Counterexample for C2 as stated: a project whose similarity to the
query is exactly the threshold `0.3` is *excluded* (the source filters
with the strict `similarity > 0.3`), so entries exactly at the threshold
are not included. -/
theorem find_similar_excludes_exact_threshold :
    find_similar_projects demoQuery [demoProjAtThreshold] 5 = [] := by
  unfold find_similar_projects
  rw [List.filterMap_cons]
  have he : simEntry demoQuery demoProjAtThreshold = none := by
    unfold simEntry demoProjAtThreshold
    have hc := cosineSim_at_threshold
    simp only [demoQuery] at hc ⊢
    simp [hc]
  rw [he]
  simp [List.insertionSort]

/-- C5 (amended): two corpus projects with identical similarity to the
query are returned in *corpus iteration order* — Python's `list.sort` is
stable and the sort key is the similarity alone, so `project_date` is
never consulted for tie-breaking. -/
theorem find_similar_tie_keeps_corpus_order (q : List ℝ) (p1 p2 : SimProject)
    (k : ℕ) (hk : 2 ≤ k)
    (h1e : p1.description_embedding.isEmpty = false)
    (h2e : p2.description_embedding.isEmpty = false)
    (h1l : p1.description_embedding.length = q.length)
    (h2l : p2.description_embedding.length = q.length)
    (h1s : 0.3 < cosineSim q p1.description_embedding)
    (h2s : 0.3 < cosineSim q p2.description_embedding)
    (heq : cosineSim q p1.description_embedding = cosineSim q p2.description_embedding) :
    find_similar_projects q [p1, p2] k =
      [mkSimResult q p1, mkSimResult q p2] := by
  have e1 : simEntry q p1 = some (mkSimResult q p1) := by
    unfold simEntry
    simp [h1e, h1l, h1s]
  have e2 : simEntry q p2 = some (mkSimResult q p2) := by
    unfold simEntry
    simp [h2e, h2l, h2s]
  unfold find_similar_projects
  rw [List.filterMap_cons, e1, List.filterMap_cons, e2, List.filterMap_nil]
  have hord : simDescOrder (mkSimResult q p1) (mkSimResult q p2) := by
    unfold simDescOrder mkSimResult
    exact le_of_eq heq.symm
  have hsort : List.insertionSort simDescOrder [mkSimResult q p1, mkSimResult q p2] =
      [mkSimResult q p1, mkSimResult q p2] := by
    calc List.insertionSort simDescOrder [mkSimResult q p1, mkSimResult q p2]
        = List.orderedInsert simDescOrder (mkSimResult q p1) [mkSimResult q p2] := rfl
      _ = [mkSimResult q p1, mkSimResult q p2] := List.orderedInsert_of_le simDescOrder [] hord
  rw [hsort]
  exact List.take_of_length_le (by simpa using hk)

/-- Witness for C5 (amended): the two concrete tied projects. -/
theorem find_similar_tie_keeps_corpus_order_witness :
    cosineSim demoQuery demoProjOlder.description_embedding =
      cosineSim demoQuery demoProjNewer.description_embedding ∧
    find_similar_projects demoQuery [demoProjOlder, demoProjNewer] 5 =
      [mkSimResult demoQuery demoProjOlder, mkSimResult demoQuery demoProjNewer] := by
  constructor
  · rfl
  · refine find_similar_tie_keeps_corpus_order demoQuery demoProjOlder demoProjNewer 5
      (by norm_num) rfl rfl rfl rfl ?_ ?_ rfl
    · rw [show demoProjOlder.description_embedding = ([1, 0] : List ℝ) from rfl,
        show demoQuery = ([1, 0] : List ℝ) from rfl, cosineSim_unit_pair]
      norm_num
    · rw [show demoProjNewer.description_embedding = ([1, 0] : List ℝ) from rfl,
        show demoQuery = ([1, 0] : List ℝ) from rfl, cosineSim_unit_pair]
      norm_num

/-- Counterexample for C5 as stated: with two equally similar projects,
the older one listed first in the corpus is returned *first*, although
the other project has the more recent `project_date` — the claimed
newest-first tie-break does not exist. -/
theorem find_similar_tie_ignores_recency :
    demoProjOlder.project_date < demoProjNewer.project_date ∧
    find_similar_projects demoQuery [demoProjOlder, demoProjNewer] 5 =
      [mkSimResult demoQuery demoProjOlder, mkSimResult demoQuery demoProjNewer] := by
  constructor
  · show (0 : ℤ) < 100
    norm_num
  · have e1 : simEntry demoQuery demoProjOlder = some (mkSimResult demoQuery demoProjOlder) :=
      simEntry_unit demoProjOlder rfl
    have e2 : simEntry demoQuery demoProjNewer = some (mkSimResult demoQuery demoProjNewer) :=
      simEntry_unit demoProjNewer rfl
    unfold find_similar_projects
    rw [List.filterMap_cons, e1, List.filterMap_cons, e2, List.filterMap_nil]
    have hord : simDescOrder (mkSimResult demoQuery demoProjOlder)
        (mkSimResult demoQuery demoProjNewer) := by
      unfold simDescOrder
      exact le_of_eq rfl
    have hsort : List.insertionSort simDescOrder
        [mkSimResult demoQuery demoProjOlder, mkSimResult demoQuery demoProjNewer] =
        [mkSimResult demoQuery demoProjOlder, mkSimResult demoQuery demoProjNewer] := by
      calc List.insertionSort simDescOrder
            [mkSimResult demoQuery demoProjOlder, mkSimResult demoQuery demoProjNewer]
          = List.orderedInsert simDescOrder (mkSimResult demoQuery demoProjOlder)
              [mkSimResult demoQuery demoProjNewer] := rfl
        _ = [mkSimResult demoQuery demoProjOlder, mkSimResult demoQuery demoProjNewer] :=
            List.orderedInsert_of_le simDescOrder [] hord
    rw [hsort]
    exact List.take_of_length_le (by simp)

/-! ## C10 — totality of tier classification -/

/-- C10: `classify_confidence_level` is total on `ℝ` and always returns
one of the five tier records by first matching inclusive lower bound;
every input `≥ 0.8` (even above 1) is `'Sehr hoch'` and every input
`< 0.2` (even negative) is `'Sehr niedrig'`; no input is rejected. -/
theorem classify_confidence_level_total :
    (∀ c : ℝ, 0.8 ≤ c → classify_confidence_level c = sehrHochLevel) ∧
    (∀ c : ℝ, c < 0.2 → classify_confidence_level c = sehrNiedrigLevel) ∧
    (∀ c : ℝ, classify_confidence_level c = sehrHochLevel ∨
      classify_confidence_level c = hochLevel ∨
      classify_confidence_level c = mittelLevel ∨
      classify_confidence_level c = niedrigLevel ∨
      classify_confidence_level c = sehrNiedrigLevel) := by
  refine ⟨fun c h => ?_, fun c h => ?_, fun c => ?_⟩
  · unfold classify_confidence_level
    rw [if_pos h]
  · unfold classify_confidence_level
    rw [if_neg (by linarith), if_neg (by linarith), if_neg (by linarith),
      if_neg (by linarith)]
  · unfold classify_confidence_level
    split_ifs <;> simp

/-- Witness for C10: an out-of-range high input and a negative input. -/
theorem classify_confidence_level_total_witness :
    classify_confidence_level 2 = sehrHochLevel ∧
    classify_confidence_level (-1) = sehrNiedrigLevel :=
  ⟨classify_confidence_level_total.1 2 (by norm_num),
   classify_confidence_level_total.2.1 (-1) (by norm_num)⟩

end HandwerkML
